import Mathlib

/-!
Verification of the housing-price inference pipeline
(`src/inference_pipeline/inference.py`, `src/api/main.py`,
`src/utils/exceptions.py`).

The embedding models a pandas `DataFrame` column-wise: an explicit row
count together with an ordered association list from column name to the
list of cell values of that column.  Cell values are rationals, strings,
or the missing marker `na` (pandas `NaN`).  The stages of `predict` are
translated one by one; external artifacts (outlier policy, the two fitted
encoders, the training schema, the serialized model) are the fields of an
`Env` record, `none` standing for an artifact file that is absent on disk.

The helpers `clean_and_merge`, `drop_duplicates`, `remove_outliers`
(`src.feature_pipeline.preprocess`) and `add_date_features`,
`drop_unused_columns` (`src.feature_pipeline.feature_engineering`) are
imported by `inference.py` but their source is not part of this
repository snapshot; they are modelled from the spec, as marked in their
doc comments.
-/

namespace HousingML

/-- Decidable equality for `Except`, so that concrete pipeline runs can
be checked by `decide`. -/
instance {ε α : Type} [DecidableEq ε] [DecidableEq α] : DecidableEq (Except ε α) :=
  fun x y =>
    match x, y with
    | Except.ok a, Except.ok b =>
      if h : a = b then isTrue (by rw [h]) else isFalse (by simp [h])
    | Except.error e, Except.error f =>
      if h : e = f then isTrue (by rw [h]) else isFalse (by simp [h])
    | Except.ok _, Except.error _ => isFalse (by simp)
    | Except.error _, Except.ok _ => isFalse (by simp)

/-- A cell value: a number (rationals stand for Python floats/ints in the
ranges the pipeline handles), a string, or the missing marker (`NaN`). -/
inductive Value : Type where
  | num (q : ℚ)
  | str (s : String)
  | na
deriving DecidableEq

/-- A pandas DataFrame, column-oriented: `nrows` is the length of the row
index, `cols` the ordered list of (column name, cell values) pairs.  A
well-formed frame has every column of length `nrows`. -/
structure DataFrame : Type where
  nrows : Nat
  cols : List (String × List Value)
deriving DecidableEq

/-- The ordered list of column names (`df.columns`). -/
def colNames (df : DataFrame) : List String :=
  df.cols.map Prod.fst

/-- `df[c]`: the values of the first column named `c`, if present. -/
def getCol (df : DataFrame) (c : String) : Option (List Value) :=
  (df.cols.find? (fun p => p.1 == c)).map Prod.snd

/-- `c in df.columns`. -/
def hasCol (df : DataFrame) (c : String) : Bool :=
  (getCol df c).isSome

/-- `df[c] = vs`: overwrite the column named `c` in place if present,
otherwise append it as the last column.  The row count is unchanged. -/
def setCol (df : DataFrame) (c : String) (vs : List Value) : DataFrame :=
  if hasCol df c then
    ⟨df.nrows, df.cols.map (fun p => if p.1 == c then (p.1, vs) else p)⟩
  else
    ⟨df.nrows, df.cols ++ [(c, vs)]⟩

/-- `df.drop(columns=[c])` (the call sites are guarded or pass
`errors="ignore"`, so dropping an absent column is the identity). -/
def dropCol (df : DataFrame) (c : String) : DataFrame :=
  ⟨df.nrows, df.cols.filter (fun p => p.1 != c)⟩

/-- Drop every column whose name occurs in `cs`, ignoring absent names. -/
def dropCols (df : DataFrame) (cs : List String) : DataFrame :=
  ⟨df.nrows, df.cols.filter (fun p => !(decide (p.1 ∈ cs)))⟩

/-- `df.reindex(columns=S, fill_value=fill)`: the result has exactly the
columns `S` in that order; a column absent from `df` is filled with
`fill` in every row. -/
def reindex (df : DataFrame) (S : List String) (fill : Value) : DataFrame :=
  ⟨df.nrows, S.map (fun c => (c, (getCol df c).getD (List.replicate df.nrows fill)))⟩

/-- Row `i` of the frame, as an association list in column order
(missing cells read as `na`). -/
def rowAt (df : DataFrame) (i : Nat) : List (String × Value) :=
  df.cols.map (fun p => (p.1, p.2.getD i Value.na))

/-- Restrict the frame to the rows whose indices are listed in `idxs`,
in that order. -/
def selectRows (df : DataFrame) (idxs : List Nat) : DataFrame :=
  ⟨idxs.length, df.cols.map (fun p => (p.1, idxs.map (fun i => p.2.getD i Value.na)))⟩

/-- Modelled from the spec: `clean_and_merge` of
`src.feature_pipeline.preprocess` (source absent from the snapshot).
The spec's merge step concatenates a secondary reference batch when one
is given; `predict` passes only the input batch, so at inference the
step returns the batch itself. -/
def clean_and_merge (df : DataFrame) : DataFrame :=
  df

/-- Modelled from the spec: `drop_duplicates` of
`src.feature_pipeline.preprocess` (source absent from the snapshot).
Removes rows that are exact duplicates across all columns, keeping the
first occurrence and preserving the relative order of survivors. -/
def drop_duplicates (df : DataFrame) : DataFrame :=
  selectRows df
    ((List.range df.nrows).filter
      (fun i => decide (∀ j ∈ List.range i, rowAt df j ≠ rowAt df i)))

/-- Modelled from the spec: `remove_outliers` of
`src.feature_pipeline.preprocess` (source absent from the snapshot).
Removes every row whose numeric fields fall outside a fixed acceptable
range; the spec leaves the range policy abstract ("policy-defined"), so
the policy is a parameter `keep` deciding which rows survive. -/
def remove_outliers (keep : List (String × Value) → Bool) (df : DataFrame) : DataFrame :=
  selectRows df ((List.range df.nrows).filter (fun i => keep (rowAt df i)))

/-- The error kinds surfaced by `predict`.  `nameError n` models a Python
`NameError` raised because the identifier `n` is referenced without
being bound in the module (see `predictStep`); the other three model the
classes of `src/utils/exceptions.py` and pandas `ValueError`. -/
inductive PyExc : Type where
  | nameError (undefined : String)
  | modelNotFoundError (msg : String)
  | predictionError (msg : String)
  | valueError (msg : String)
deriving DecidableEq

/-- Split a character list at every dash. -/
def splitDash : List Char → List (List Char)
  | [] => [[]]
  | c :: cs =>
    let r := splitDash cs
    if c = '-' then [] :: r
    else
      match r with
      | [] => [[c]]
      | g :: gs => (c :: g) :: gs

/-- Read a nonempty list of decimal digits as a number. -/
def digitsToNat? (cs : List Char) : Option Nat :=
  match cs with
  | [] => none
  | _ =>
    cs.foldl
      (fun acc c =>
        match acc with
        | none => none
        | some n => if c.isDigit then some (n * 10 + (c.toNat - 48)) else none)
      (some 0)

/-- Parse a `"YYYY-MM-DD"` date string; anything else is unparsable. -/
def parseDate (v : Value) : Option (Nat × Nat × Nat) :=
  match v with
  | Value.str s =>
    match splitDash s.data with
    | [ys, ms, ds] =>
      match digitsToNat? ys, digitsToNat? ms, digitsToNat? ds with
      | some y, some m, some d =>
        if 1 ≤ m ∧ m ≤ 12 ∧ 1 ≤ d ∧ d ≤ 31 then some (y, m, d) else none
      | _, _, _ => none
    | _ => none
  | _ => none

/-- Day of the week (0 = Sunday) by Sakamoto's method. -/
def dayOfWeek (y m d : Nat) : Nat :=
  let yy := if m < 3 then y - 1 else y
  (yy + yy / 4 - yy / 100 + yy / 400
    + (List.getD [0, 3, 2, 5, 0, 3, 5, 1, 4, 6, 2, 4] (m - 1) 0) + d) % 7

/-- Modelled from the spec: `add_date_features` of
`src.feature_pipeline.feature_engineering` (source absent from the
snapshot).  Derives the calendar columns `year`, `month`, `day_of_week`
from the `date` column, keeping the original `date` column; a row with
an unparsable date fails deterministically. -/
def add_date_features (df : DataFrame) : Except PyExc DataFrame :=
  match getCol df "date" with
  | none => Except.ok df
  | some dvs =>
    match dvs.mapM parseDate with
    | none => Except.error (PyExc.valueError "unparsable date")
    | some ymds =>
      Except.ok
        (setCol
          (setCol
            (setCol df "year" (ymds.map (fun x => Value.num (x.1 : ℚ))))
            "month" (ymds.map (fun x => Value.num (x.2.1 : ℚ))))
          "day_of_week" (ymds.map (fun x => Value.num ((dayOfWeek x.1 x.2.1 x.2.2 : Nat) : ℚ))))

/-- `df["zipcode"].map(freq_map).fillna(0)` applied to one cell: a code
found in the frequency map yields its frequency, any other value
(an unseen code, a non-string, or a missing cell) yields 0. -/
def freqLookup (fm : String → Option ℚ) (v : Value) : Value :=
  Value.num (match v with
    | Value.str s => (fm s).getD 0
    | _ => 0)

/-- Lines 93-97 of `inference.py` (the guard taken): build the
`zipcode_freq` column from the frequency map and drop `zipcode`. -/
def applyFreq (fm : String → Option ℚ) (df : DataFrame) : DataFrame :=
  dropCol
    (setCol df "zipcode_freq" (((getCol df "zipcode").getD []).map (freqLookup fm)))
    "zipcode"

/-- Lines 100-104 of `inference.py` (the guard taken): build the
`city_full_encoded` column by the fitted target encoder (opaque to the
spec, hence an arbitrary per-cell function) and drop `city_full`. -/
def applyTarget (te : Value → Value) (df : DataFrame) : DataFrame :=
  dropCol
    (setCol df "city_full_encoded" (((getCol df "city_full").getD []).map te))
    "city_full"

/-- Modelled from the spec: `drop_unused_columns` of
`src.feature_pipeline.feature_engineering` (source absent from the
snapshot).  Removes the columns of a fixed leakage / non-feature list,
ignoring absent names; the spec leaves the list abstract
("policy-defined"), so it is a parameter. -/
def drop_unused_columns (dropList : List String) (df : DataFrame) : DataFrame :=
  dropCols df dropList

/-- The process environment of one `predict` call: the outlier policy of
the cleaner, the two encoder artifacts (`none` = file absent on disk),
the pruner's leakage-column list, `TRAIN_FEATURE_COLUMNS` (`none` = the
training-features file was absent at module load), and the serialized
model (`none` = the model file is absent; a loaded model maps a feature
matrix to a prediction list or an exception message). -/
structure Env : Type where
  outlierKeep : List (String × Value) → Bool
  freqEnc : Option (String → Option ℚ)
  targetEnc : Option (Value → Value)
  dropList : List String
  schema : Option (List String)
  model : Option (DataFrame → Except String (List ℚ))

/-- Lines 43-50 of `inference.py`: `TRAIN_FEATURE_COLUMNS` is the header
of the training-features file minus the `price` column when the file
exists (`some header`), and `None` when it does not. -/
def loadTrainFeatureColumns (header : Option (List String)) : Option (List String) :=
  header.map (List.filter (fun c => c != "price"))

/-- Step 1 of `predict` (lines 80-83): `clean_and_merge`,
`drop_duplicates`, `remove_outliers`. -/
def cleanerStage (env : Env) (df : DataFrame) : DataFrame :=
  remove_outliers env.outlierKeep (drop_duplicates (clean_and_merge df))

/-- Step 2 of `predict` (lines 86-89): date features, only when a `date`
column is present. -/
def enrichStage (df : DataFrame) : Except PyExc DataFrame :=
  if hasCol df "date" then add_date_features df else Except.ok df

/-- Step 3a of `predict` (lines 92-97): frequency encoding, only when the
encoder artifact exists on disk and a `zipcode` column is present. -/
def freqStage (env : Env) (df : DataFrame) : DataFrame :=
  match env.freqEnc with
  | some fm => if hasCol df "zipcode" then applyFreq fm df else df
  | none => df

/-- Step 3b of `predict` (lines 100-104): target encoding, only when the
encoder artifact exists on disk and a `city_full` column is present. -/
def targetStage (env : Env) (df : DataFrame) : DataFrame :=
  match env.targetEnc with
  | some te => if hasCol df "city_full" then applyTarget te df else df
  | none => df

/-- Line 107 of `predict`: drop the leakage columns. -/
def prunerStage (env : Env) (df : DataFrame) : DataFrame :=
  drop_unused_columns env.dropList df

/-- Step 4 of `predict` (lines 109-113): when a `price` column is
present, extract its values as the side value `y_true` and drop the
column from the feature matrix. -/
def extractPrice (df : DataFrame) : Option (List Value) × DataFrame :=
  if hasCol df "price" then (getCol df "price", dropCol df "price") else (none, df)

/-- Step 5 of `predict` (lines 115-121): align with the training schema
when `TRAIN_FEATURE_COLUMNS` is not `None`, otherwise leave the matrix
as it is. -/
def alignStage (env : Env) (df : DataFrame) : DataFrame :=
  match env.schema with
  | some S => reindex df S (Value.num 0)
  | none => df

/-- Step 6 of `predict` (lines 123-133).  `inference.py` imports neither
`ModelNotFoundError` nor `PredictionError` from `src.utils.exceptions`,
so the two `raise` statements reference unbound module-level names: a
missing model file (`FileNotFoundError` from `load`) makes the handler
itself fail with `NameError: ModelNotFoundError`, and any other loading
or inference failure makes the second handler fail with
`NameError: PredictionError`. -/
def predictStep (env : Env) (df : DataFrame) : Except PyExc (List ℚ) :=
  match env.model with
  | none => Except.error (PyExc.nameError "ModelNotFoundError")
  | some mf =>
    match mf df with
    | Except.ok preds => Except.ok preds
    | Except.error _ => Except.error (PyExc.nameError "PredictionError")

/-- Step 7 of `predict` (lines 136-139): copy the matrix, assign the
`predicted_price` column and, when `y_true` was extracted, the
`actual_price` column.  A pandas column assignment whose value list does
not match the length of the row index raises `ValueError`. -/
def assembleOutput (m : DataFrame) (y : Option (List Value)) (preds : List ℚ) :
    Except PyExc DataFrame :=
  if preds.length = m.nrows then
    let out := setCol m "predicted_price" (preds.map Value.num)
    match y with
    | none => Except.ok out
    | some ys =>
      if ys.length = m.nrows then Except.ok (setCol out "actual_price" ys)
      else Except.error (PyExc.valueError "Length of values does not match length of index")
  else Except.error (PyExc.valueError "Length of values does not match length of index")

/-- The transformation half of `predict` (lines 80-121): everything up
to and including schema alignment, returning the extracted `y_true` and
the feature matrix handed to the model. -/
def pipelineCore (env : Env) (df : DataFrame) :
    Except PyExc (Option (List Value) × DataFrame) :=
  match enrichStage (cleanerStage env df) with
  | Except.error e => Except.error e
  | Except.ok d2 =>
    let d5 := prunerStage env (targetStage env (freqStage env d2))
    let yd := extractPrice d5
    Except.ok (yd.1, alignStage env yd.2)

/-- The feature matrix that reaches the model in a given call. -/
def featureMatrix (env : Env) (df : DataFrame) : Except PyExc DataFrame :=
  (pipelineCore env df).map Prod.snd

/-- `predict` of `inference.py` (lines 55-142). -/
def predict (env : Env) (df : DataFrame) : Except PyExc DataFrame :=
  match pipelineCore env df with
  | Except.error e => Except.error e
  | Except.ok yd =>
    match predictStep env yd.2 with
    | Except.error e => Except.error e
    | Except.ok preds => assembleOutput yd.2 yd.1 preds

/-- `df.empty`: true when either axis has length zero. -/
def dfEmpty (df : DataFrame) : Bool :=
  df.nrows == 0 || df.cols.isEmpty

/-- The outcome of the `/predict` endpoint: a JSON body with the
prediction list and the optional actuals list, or an HTTP error with its
status code and detail string. -/
inductive ApiResult : Type where
  | ok (predictions : List ℚ) (actuals : Option (List ℚ))
  | httpError (status : Nat) (detail : String)
deriving DecidableEq

/-- `astype(float)` on one cell of a column built by the pipeline. -/
def valToRat (v : Value) : ℚ :=
  match v with
  | Value.num q => q
  | _ => 0

/-- `predict_batch` of `src/api/main.py` (lines 148-195):
a 500 when the model file is absent, a 400 `"No data provided"` on an
empty frame, otherwise `predict`; a success returns the
`predicted_price` column and, when present, the `actual_price` column,
and any exception from `predict` becomes a 500 `"Prediction failed"`. -/
def predict_batch (env : Env) (modelFileExists : Bool) (df : DataFrame) : ApiResult :=
  if modelFileExists = false then ApiResult.httpError 500 "Model not found"
  else if dfEmpty df then ApiResult.httpError 400 "No data provided"
  else
    match predict env df with
    | Except.ok out =>
      ApiResult.ok (((getCol out "predicted_price").getD []).map valToRat)
        (if hasCol out "actual_price" then
          some (((getCol out "actual_price").getD []).map valToRat)
        else none)
    | Except.error _ => ApiResult.httpError 500 "Prediction failed"


/-! Concrete instances used by the claim theorems, their witnesses, and
the counterexamples. -/

/-- A one-row, one-column batch. -/
def dfOne : DataFrame := ⟨1, [("bedrooms", [Value.num 3])]⟩

/-- An environment whose model file is absent on disk. -/
def envNoModel : Env := ⟨fun _ => true, none, none, [], none, none⟩

/-- An environment whose loaded model raises during inference. -/
def envBadModel : Env :=
  ⟨fun _ => true, none, none, [], none, some (fun _ => Except.error "shape mismatch")⟩

/-- An environment whose outlier policy removes every row and whose model
responds with `r` on whatever matrix it is given. -/
def envDropAll (r : Except String (List ℚ)) : Env :=
  ⟨fun _ => false, none, none, [], some ["bedrooms"], some (fun _ => r)⟩

/-- An environment with no artifacts except a model predicting 5. -/
def envAct : Env := ⟨fun _ => true, none, none, [], none, some (fun _ => Except.ok [5])⟩

/-- A batch that carries a column literally named `actual_price` but no
`price` column. -/
def dfAct : DataFrame := ⟨1, [("actual_price", [Value.num 42]), ("bedrooms", [Value.num 3])]⟩

/-- The output frame `predict envAct dfAct` produces. -/
def outAct : DataFrame :=
  ⟨1, [("actual_price", [Value.num 42]), ("bedrooms", [Value.num 3]),
       ("predicted_price", [Value.num 5])]⟩

/-- The round-trip scenario input record of the spec. -/
def df8 : DataFrame :=
  ⟨1, [("date", [Value.str "2024-05-01"]), ("bedrooms", [Value.num 3]),
       ("bathrooms", [Value.num 2]), ("sqft_living", [Value.num 2000]),
       ("zipcode", [Value.str "98101"])]⟩

/-- The single row of `df8`, as seen by the outlier policy. -/
def row8 : List (String × Value) :=
  [("date", Value.str "2024-05-01"), ("bedrooms", Value.num 3), ("bathrooms", Value.num 2),
   ("sqft_living", Value.num 2000), ("zipcode", Value.str "98101")]

/-- The round-trip scenario frequency map, sending `"98101"` to 0.07. -/
def fmr8 : String → Option ℚ := fun s => if s = "98101" then some (mkRat 7 100) else none

/-- The round-trip scenario training schema. -/
def schema8 : List String :=
  ["bedrooms", "bathrooms", "sqft_living", "zipcode_freq", "year", "month"]

/-- The round-trip scenario environment, parametrized by the outlier
policy and the leakage-column list of the two spec-modelled helpers. -/
def env8 (keep : List (String × Value) → Bool) (dropL : List String) : Env :=
  ⟨keep, some fmr8, none, dropL, some schema8, none⟩

/-- `df8` after cleaning and date-feature enrichment. -/
def df8E : DataFrame :=
  ⟨1, [("date", [Value.str "2024-05-01"]), ("bedrooms", [Value.num 3]),
       ("bathrooms", [Value.num 2]), ("sqft_living", [Value.num 2000]),
       ("zipcode", [Value.str "98101"]),
       ("year", [Value.num 2024]), ("month", [Value.num 5]),
       ("day_of_week", [Value.num 3])]⟩

/-- `df8E` after frequency encoding. -/
def df8F : DataFrame :=
  ⟨1, [("date", [Value.str "2024-05-01"]), ("bedrooms", [Value.num 3]),
       ("bathrooms", [Value.num 2]), ("sqft_living", [Value.num 2000]),
       ("year", [Value.num 2024]), ("month", [Value.num 5]),
       ("day_of_week", [Value.num 3]),
       ("zipcode_freq", [Value.num (mkRat 7 100)])]⟩

/-- The feature matrix the round-trip scenario expects. -/
def expected8 : DataFrame :=
  ⟨1, [("bedrooms", [Value.num 3]), ("bathrooms", [Value.num 2]),
       ("sqft_living", [Value.num 2000]), ("zipcode_freq", [Value.num (mkRat 7 100)]),
       ("year", [Value.num 2024]), ("month", [Value.num 5])]⟩

/-- A two-row batch with one schema column and one extra column. -/
def dfW : DataFrame :=
  ⟨2, [("extra", [Value.num 1, Value.num 2]), ("bedrooms", [Value.num 3, Value.num 4])]⟩

/-- A schema with a column (`lot_size`) that no input produces. -/
def schemaW : List String := ["bedrooms", "lot_size"]

/-- An environment whose frequency map contains no code at all. -/
def env5 : Env := ⟨fun _ => true, some (fun _ => none), none, [], none, none⟩

/-- A one-row batch whose zipcode is unseen by every frequency map. -/
def df5 : DataFrame := ⟨1, [("zipcode", [Value.str "99999"])]⟩

end HousingML

namespace HousingML

/-! Column-lookup lemmas. -/

/-- Looking a name up in a consed column list. -/
theorem getCol_mk_cons (n : Nat) (p : String × List Value)
    (cs : List (String × List Value)) (c : String) :
    getCol ⟨n, p :: cs⟩ c = if p.1 = c then some p.2 else getCol ⟨n, cs⟩ c := by
  by_cases h : p.1 = c
  · simp [getCol, List.find?_cons_of_pos, h]
  · simp [getCol, List.find?_cons_of_neg, h]

/-- Looking a name up in a frame built from a name list. -/
theorem getCol_map_named (n : Nat) (S : List String) (g : String → List Value) (c : String) :
    getCol ⟨n, S.map (fun s => (s, g s))⟩ c = if c ∈ S then some (g c) else none := by
  induction S with
  | nil => simp [getCol]
  | cons a S ih =>
    rw [List.map_cons, getCol_mk_cons]
    by_cases h : a = c
    · subst h; simp
    · have h' : ¬(c = a) := fun hh => h hh.symm
      simp only [h, if_false, ih, List.mem_cons, h', false_or]

/-- Column lookup after a reindex. -/
theorem getCol_reindex (df : DataFrame) (S : List String) (fill : Value) (c : String) :
    getCol (reindex df S fill) c =
      if c ∈ S then some ((getCol df c).getD (List.replicate df.nrows fill)) else none :=
  getCol_map_named df.nrows S _ c

/-- Overwriting a column rewrites exactly the entries `find?` sees. -/
theorem find?_map_overwrite (cols : List (String × List Value)) (c : String) (vs : List Value) :
    List.find? (fun p => p.1 == c) (cols.map (fun p => if p.1 == c then (p.1, vs) else p))
      = (List.find? (fun p => p.1 == c) cols).map (fun p => (p.1, vs)) := by
  induction cols with
  | nil => rfl
  | cons p cs ih =>
    by_cases h : p.1 = c
    · rw [List.map_cons, if_pos (by simp [h])]
      rw [List.find?_cons_of_pos _ (by simp [h]), List.find?_cons_of_pos _ (by simp [h])]
      rfl
    · rw [List.map_cons, if_neg (by simp [h])]
      rw [List.find?_cons_of_neg _ (by simp [h]), List.find?_cons_of_neg _ (by simp [h]), ih]

/-- Overwriting one column leaves lookups of other names unchanged. -/
theorem find?_map_overwrite_ne (cols : List (String × List Value)) (c c' : String)
    (vs : List Value) (h : c' ≠ c) :
    List.find? (fun p => p.1 == c') (cols.map (fun p => if p.1 == c then (p.1, vs) else p))
      = List.find? (fun p => p.1 == c') cols := by
  have hcc' : ¬(c = c') := fun hh => h hh.symm
  induction cols with
  | nil => rfl
  | cons p cs ih =>
    by_cases hp : p.1 = c
    · rw [List.map_cons, if_pos (by simp [hp])]
      rw [List.find?_cons_of_neg _ (by simp [hp, hcc']),
        List.find?_cons_of_neg _ (by simp [hp, hcc']), ih]
    · rw [List.map_cons, if_neg (by simp [hp])]
      by_cases hp' : p.1 = c'
      · rw [List.find?_cons_of_pos _ (by simp [hp']), List.find?_cons_of_pos _ (by simp [hp'])]
      · rw [List.find?_cons_of_neg _ (by simp [hp']), List.find?_cons_of_neg _ (by simp [hp']), ih]

/-- Filtering one name out leaves lookups of other names unchanged. -/
theorem find?_filter_ne (cols : List (String × List Value)) (c c' : String) (h : c' ≠ c) :
    List.find? (fun p => p.1 == c') (cols.filter (fun p => p.1 != c))
      = List.find? (fun p => p.1 == c') cols := by
  induction cols with
  | nil => rfl
  | cons p cs ih =>
    by_cases hp : p.1 = c
    · rw [List.filter_cons_of_neg (by simp [hp])]
      rw [List.find?_cons_of_neg _ (by simp [hp]; exact fun hh => h hh.symm), ih]
    · rw [List.filter_cons_of_pos (by simp [hp])]
      by_cases hp' : p.1 = c'
      · rw [List.find?_cons_of_pos _ (by simp [hp']), List.find?_cons_of_pos _ (by simp [hp'])]
      · rw [List.find?_cons_of_neg _ (by simp [hp']), List.find?_cons_of_neg _ (by simp [hp']), ih]

/-- A filtered-out name is no longer found. -/
theorem find?_filter_self (cols : List (String × List Value)) (c : String) :
    List.find? (fun p => p.1 == c) (cols.filter (fun p => p.1 != c)) = none := by
  rw [List.find?_eq_none]
  intro x hx
  rw [List.mem_filter] at hx
  simp only [bne_iff_ne, ne_eq] at hx
  simp [hx.2]

/-- Filtering a name list out leaves lookups of names outside it unchanged. -/
theorem find?_filter_notmem (cols : List (String × List Value)) (c : String)
    (cs : List String) (h : c ∉ cs) :
    List.find? (fun p => p.1 == c) (cols.filter (fun p => !(decide (p.1 ∈ cs))))
      = List.find? (fun p => p.1 == c) cols := by
  induction cols with
  | nil => rfl
  | cons p ps ih =>
    by_cases hp : p.1 ∈ cs
    · have hpc : ¬(p.1 = c) := fun hh => h (hh ▸ hp)
      rw [List.filter_cons_of_neg (by simp [hp])]
      rw [List.find?_cons_of_neg _ (by simp [hpc]), ih]
    · rw [List.filter_cons_of_pos (by simp [hp])]
      by_cases hp' : p.1 = c
      · rw [List.find?_cons_of_pos _ (by simp [hp']), List.find?_cons_of_pos _ (by simp [hp'])]
      · rw [List.find?_cons_of_neg _ (by simp [hp']), List.find?_cons_of_neg _ (by simp [hp']), ih]

/-- A written column reads back exactly as written. -/
theorem getCol_setCol_self (df : DataFrame) (c : String) (vs : List Value) :
    getCol (setCol df c vs) c = some vs := by
  cases hb : hasCol df c with
  | true =>
    unfold setCol
    rw [hb, if_pos rfl]
    show (Option.map Prod.snd (List.find? _ _)) = some vs
    rw [find?_map_overwrite]
    unfold hasCol at hb
    obtain ⟨q, hq⟩ := Option.isSome_iff_exists.mp hb
    obtain ⟨r, hr, hr2⟩ := Option.map_eq_some'.mp hq
    rw [hr]
    rfl
  | false =>
    unfold setCol
    rw [hb, if_neg Bool.false_ne_true]
    show (Option.map Prod.snd (List.find? _ (df.cols ++ [(c, vs)]))) = some vs
    rw [List.find?_append]
    have hn : List.find? (fun p => p.1 == c) df.cols = none := by
      unfold hasCol getCol at hb
      rcases ho : List.find? (fun p => p.1 == c) df.cols with _ | q
      · exact ho
      · rw [ho] at hb; simp at hb
    rw [hn]
    simp [List.find?]

/-- Writing one column leaves every other column unchanged. -/
theorem getCol_setCol_ne (df : DataFrame) (c c' : String) (vs : List Value) (h : c' ≠ c) :
    getCol (setCol df c vs) c' = getCol df c' := by
  cases hb : hasCol df c with
  | true =>
    unfold setCol
    rw [hb, if_pos rfl]
    show (Option.map Prod.snd (List.find? _ _)) = _
    rw [find?_map_overwrite_ne _ _ _ _ h]
    rfl
  | false =>
    unfold setCol
    rw [hb, if_neg Bool.false_ne_true]
    show (Option.map Prod.snd (List.find? _ (df.cols ++ [(c, vs)]))) = _
    rw [List.find?_append]
    have hcc' : ¬(c = c') := fun hh => h hh.symm
    have : List.find? (fun p => p.1 == c') [(c, vs)] = none := by
      rw [List.find?_cons_of_neg _ (by simp [hcc'])]
      rfl
    rw [this]
    simp [getCol]

/-- Dropping one column leaves every other column unchanged. -/
theorem getCol_dropCol_ne (df : DataFrame) (c c' : String) (h : c' ≠ c) :
    getCol (dropCol df c) c' = getCol df c' := by
  show Option.map Prod.snd
      (List.find? (fun p => p.1 == c') (df.cols.filter (fun p => p.1 != c))) = getCol df c'
  rw [find?_filter_ne _ _ _ h]
  rfl

/-- A dropped column is gone. -/
theorem hasCol_dropCol_self (df : DataFrame) (c : String) :
    hasCol (dropCol df c) c = false := by
  show (Option.map Prod.snd
      (List.find? (fun p => p.1 == c) (df.cols.filter (fun p => p.1 != c)))).isSome = false
  rw [find?_filter_self]
  rfl

/-- Dropping a column list leaves columns outside it unchanged. -/
theorem getCol_dropCols_notmem (df : DataFrame) (cs : List String) (c : String) (h : c ∉ cs) :
    getCol (dropCols df cs) c = getCol df c := by
  show Option.map Prod.snd
      (List.find? (fun p => p.1 == c)
        (df.cols.filter (fun p => !(decide (p.1 ∈ cs))))) = getCol df c
  rw [find?_filter_notmem _ _ _ h]
  rfl

/-- Dropping columns never makes an absent column appear. -/
theorem hasCol_dropCols_of_not (df : DataFrame) (cs : List String) (c : String)
    (h : hasCol df c = false) :
    hasCol (dropCols df cs) c = false := by
  unfold hasCol getCol at h ⊢
  rcases ho : List.find? (fun p => p.1 == c) (dropCols df cs).cols with _ | q
  · rw [ho]; rfl
  · exfalso
    have hq := List.find?_some ho
    have hmem := List.mem_of_find?_eq_some ho
    rcases hf : List.find? (fun p => p.1 == c) df.cols with _ | r
    · rw [List.find?_eq_none] at hf
      exact hf q (List.mem_filter.mp hmem).1 hq
    · rw [hf] at h; simp at h

/-- Writing one column does not create or remove other columns. -/
theorem hasCol_setCol_ne (df : DataFrame) (c c' : String) (vs : List Value) (h : c' ≠ c) :
    hasCol (setCol df c vs) c' = hasCol df c' := by
  unfold hasCol
  rw [getCol_setCol_ne _ _ _ _ h]

end HousingML

namespace HousingML

/-! Row-count preservation through the stages. -/

/-- Writing a column keeps the row count. -/
theorem nrows_setCol (df : DataFrame) (c : String) (vs : List Value) :
    (setCol df c vs).nrows = df.nrows := by
  unfold setCol
  split <;> rfl

/-- Dropping a column keeps the row count. -/
theorem nrows_dropCol (df : DataFrame) (c : String) : (dropCol df c).nrows = df.nrows := rfl

/-- Dropping a column list keeps the row count. -/
theorem nrows_dropCols (df : DataFrame) (cs : List String) :
    (dropCols df cs).nrows = df.nrows := rfl

/-- Reindexing keeps the row count. -/
theorem nrows_reindex (df : DataFrame) (S : List String) (f : Value) :
    (reindex df S f).nrows = df.nrows := rfl

/-- Frequency encoding keeps the row count. -/
theorem nrows_applyFreq (fm : String → Option ℚ) (df : DataFrame) :
    (applyFreq fm df).nrows = df.nrows := by
  unfold applyFreq
  rw [nrows_dropCol, nrows_setCol]

/-- Target encoding keeps the row count. -/
theorem nrows_applyTarget (te : Value → Value) (df : DataFrame) :
    (applyTarget te df).nrows = df.nrows := by
  unfold applyTarget
  rw [nrows_dropCol, nrows_setCol]

/-- Date-feature enrichment keeps the row count. -/
theorem add_date_features_ok_nrows (df d : DataFrame)
    (h : add_date_features df = Except.ok d) : d.nrows = df.nrows := by
  unfold add_date_features at h
  split at h
  · cases h
    rfl
  · split at h
    · cases h
    · cases h
      rw [nrows_setCol, nrows_setCol, nrows_setCol]

/-- The enrichment stage keeps the row count. -/
theorem enrichStage_ok_nrows (df d : DataFrame)
    (h : enrichStage df = Except.ok d) : d.nrows = df.nrows := by
  unfold enrichStage at h
  by_cases hd : hasCol df "date" = true
  · rw [if_pos hd] at h
    exact add_date_features_ok_nrows df d h
  · rw [if_neg hd] at h
    cases h
    rfl

/-- The frequency-encoding stage keeps the row count. -/
theorem nrows_freqStage (env : Env) (df : DataFrame) :
    (freqStage env df).nrows = df.nrows := by
  unfold freqStage
  split
  · split
    · rw [nrows_applyFreq]
    · rfl
  · rfl

/-- The target-encoding stage keeps the row count. -/
theorem nrows_targetStage (env : Env) (df : DataFrame) :
    (targetStage env df).nrows = df.nrows := by
  unfold targetStage
  split
  · split
    · rw [nrows_applyTarget]
    · rfl
  · rfl

/-- The pruner stage keeps the row count. -/
theorem nrows_prunerStage (env : Env) (df : DataFrame) :
    (prunerStage env df).nrows = df.nrows := rfl

/-- Extracting the price column keeps the row count. -/
theorem nrows_extractPrice (df : DataFrame) : (extractPrice df).2.nrows = df.nrows := by
  unfold extractPrice
  split <;> rfl

/-- The alignment stage keeps the row count. -/
theorem nrows_alignStage (env : Env) (df : DataFrame) :
    (alignStage env df).nrows = df.nrows := by
  unfold alignStage
  rcases env.schema with _ | S <;> rfl

/-- The matrix handed to the model has exactly as many rows as the
cleaned batch: every stage after the cleaner is row-count preserving. -/
theorem pipelineCore_ok_nrows (env : Env) (df : DataFrame)
    (y : Option (List Value)) (m : DataFrame)
    (h : pipelineCore env df = Except.ok (y, m)) :
    m.nrows = (cleanerStage env df).nrows := by
  unfold pipelineCore at h
  split at h
  · cases h
  · rename_i d2 he
    cases h
    rw [nrows_alignStage, nrows_extractPrice, nrows_prunerStage, nrows_targetStage,
      nrows_freqStage]
    exact enrichStage_ok_nrows _ _ he

end HousingML

namespace HousingML

/-- Claim C1 (code bug): with the model file absent, `predict` is
documented to raise `ModelNotFoundError`, and on any other inference
failure `PredictionError`; but `inference.py` never imports either name,
so both handlers in fact fail with a `NameError` naming the intended
class — evaluated here on a concrete one-row batch against an absent
model file and against a model that raises during inference. -/
theorem predict_error_kinds_bug :
    predict envNoModel dfOne = Except.error (PyExc.nameError "ModelNotFoundError")
    ∧ predict envBadModel dfOne = Except.error (PyExc.nameError "PredictionError") :=
  ⟨by decide, by decide⟩

/-- Claim C2: aligning any batch with a training schema `S` yields
exactly the columns of `S`, in `S`'s order; columns present in the batch
pass through unchanged, columns of `S` absent from the batch are filled
with 0 in every row, and columns outside `S` are dropped — for any input
column set. -/
theorem schema_alignment_exact (df : DataFrame) (S : List String) :
    colNames (reindex df S (Value.num 0)) = S
    ∧ (reindex df S (Value.num 0)).cols.length = S.length
    ∧ (∀ env : Env, env.schema = some S → alignStage env df = reindex df S (Value.num 0))
    ∧ (∀ c, c ∈ S →
        getCol (reindex df S (Value.num 0)) c
          = some ((getCol df c).getD (List.replicate df.nrows (Value.num 0))))
    ∧ (∀ c, c ∉ S → getCol (reindex df S (Value.num 0)) c = none) := by
  refine ⟨?_, ?_, ?_, ?_, ?_⟩
  · simp [colNames, reindex, List.map_map, Function.comp_def]
  · simp [reindex]
  · intro env h
    unfold alignStage
    rw [h]
  · intro c hc
    rw [getCol_reindex, if_pos hc]
  · intro c hc
    rw [getCol_reindex, if_neg hc]

/-- Witness for claim C2: the spec's missing-schema-column scenario — a
schema column `lot_size` that no input produces comes out as a zero
column, and the input's `extra` column is dropped. -/
theorem schema_alignment_exact_witness :
    getCol (reindex dfW schemaW (Value.num 0)) "lot_size"
      = some ((getCol dfW "lot_size").getD (List.replicate dfW.nrows (Value.num 0)))
    ∧ getCol (reindex dfW schemaW (Value.num 0)) "extra" = none :=
  ⟨(schema_alignment_exact dfW schemaW).2.2.2.1 "lot_size" (by decide),
   (schema_alignment_exact dfW schemaW).2.2.2.2 "extra" (by decide)⟩

/-- Counterexample to claim C3: a one-row batch whose single row is
removed by the cleaner's outlier policy is not given a distinct
"no rows to predict" result — the pipeline proceeds to call the model on
the empty matrix, and when the model raises (as real models do on zero
samples) the caller receives the generic 500 "Prediction failed". -/
theorem empty_after_cleaning_cex :
    predict_batch (envDropAll (Except.error "Found array with 0 samples")) true dfOne
      = ApiResult.httpError 500 "Prediction failed" := by decide

/-- Claim C3 as amended: a batch that is empty on arrival is rejected at
the API boundary with the distinct 400 "No data provided" before
`predict` runs; but a batch reduced to zero rows by cleaning is passed
on to the model — the endpoint's outcome is a function of the model's
response on the emptied matrix (an exception or a non-empty prediction
list becomes the generic 500 "Prediction failed"), never a distinct
"no data" result. -/
theorem empty_batch_behavior :
    (∀ env df, dfEmpty df = true →
      predict_batch env true df = ApiResult.httpError 400 "No data provided")
    ∧ (∀ r, predict_batch (envDropAll r) true dfOne =
        match r with
        | Except.ok [] => ApiResult.ok [] none
        | _ => ApiResult.httpError 500 "Prediction failed") := by
  constructor
  · intro env df h
    unfold predict_batch
    rw [if_neg (by simp), h, if_pos rfl]
  · intro r
    rcases r with e | qs
    · rfl
    · rcases qs with _ | ⟨q, qs⟩
      · rfl
      · rfl

/-- Witness for claim C3: a zero-row batch receives the distinct 400. -/
theorem empty_batch_behavior_witness :
    predict_batch (envDropAll (Except.ok [])) true ⟨0, []⟩
      = ApiResult.httpError 400 "No data provided" :=
  empty_batch_behavior.1 (envDropAll (Except.ok [])) ⟨0, []⟩ (by decide)

/-- Claim C4: every `predict` call runs the stages in the fixed order
cleaner, conditional date-feature enricher, frequency encoder, target
encoder, column pruner, price extraction and removal, schema aligner,
predictor, output assembly; in particular the frequency encoder is
always applied before the target encoder. -/
theorem stage_order (env : Env) (df : DataFrame) :
    predict env df =
      match enrichStage (cleanerStage env df) with
      | Except.error e => Except.error e
      | Except.ok d2 =>
        match predictStep env
            (alignStage env
              (extractPrice (prunerStage env (targetStage env (freqStage env d2)))).2) with
        | Except.error e => Except.error e
        | Except.ok preds =>
          assembleOutput
            (alignStage env
              (extractPrice (prunerStage env (targetStage env (freqStage env d2)))).2)
            (extractPrice (prunerStage env (targetStage env (freqStage env d2)))).1 preds := by
  unfold predict pipelineCore
  rcases he : enrichStage (cleanerStage env df) with e | d2
  · rfl
  · rfl

/-- Claim C5: when the frequency-encoding stage runs (encoder artifact
present, `zipcode` column present), the new `zipcode_freq` column maps
each zipcode through the encoder state, a code absent from the state
yields exactly 0 rather than an error, and the categorical `zipcode`
column is dropped. -/
theorem freq_unseen_zero (env : Env) (df : DataFrame) (fm : String → Option ℚ)
    (zs : List Value) (hfm : env.freqEnc = some fm) (hz : hasCol df "zipcode" = true)
    (hzs : getCol df "zipcode" = some zs) :
    getCol (freqStage env df) "zipcode_freq" = some (zs.map (freqLookup fm))
    ∧ (∀ i v, i < zs.length → zs.getD i Value.na = v →
        (∀ s, v = Value.str s → fm s = none) →
        (zs.map (freqLookup fm)).getD i Value.na = Value.num 0)
    ∧ hasCol (freqStage env df) "zipcode" = false := by
  have hfd : freqStage env df = applyFreq fm df := by
    unfold freqStage
    rw [hfm, hz]
    simp
  refine ⟨?_, ?_, ?_⟩
  · rw [hfd]
    unfold applyFreq
    rw [getCol_dropCol_ne _ _ _ (by decide), getCol_setCol_self, hzs]
    rfl
  · intro i v hi hv hnone
    rw [List.getD_eq_getElem?_getD, List.getElem?_map]
    rw [List.getD_eq_getElem?_getD] at hv
    rcases hg : zs[i]? with _ | w
    · rw [List.getElem?_eq_none_iff] at hg
      omega
    · rw [hg] at hv
      simp only [Option.getD_some] at hv
      subst hv
      simp only [hg, Option.map_some', Option.getD_some]
      unfold freqLookup
      rcases w with q | s | _
      · rfl
      · show Value.num ((fm s).getD 0) = Value.num 0
        rw [hnone s rfl]
        rfl
      · rfl
  · rw [hfd]
    unfold applyFreq
    exact hasCol_dropCol_self _ _

/-- Witness for claim C5: a zipcode unseen by the encoder state comes
out as frequency 0 and the `zipcode` column is gone. -/
theorem freq_unseen_zero_witness :
    getCol (freqStage env5 df5) "zipcode_freq" = some [Value.num 0]
    ∧ hasCol (freqStage env5 df5) "zipcode" = false := by
  have h := freq_unseen_zero env5 df5 (fun _ => none) [Value.str "99999"] rfl
    (by decide) (by decide)
  exact ⟨h.1, h.2.2⟩

/-- Claim C6: each encoder stage is a silent no-op — the batch passes
through unchanged and no error is raised — whenever its source column or
its artifact is absent, and it applies exactly when both are present. -/
theorem encoders_silent_noop (env : Env) (df : DataFrame) :
    ((env.freqEnc = none ∨ hasCol df "zipcode" = false) → freqStage env df = df)
    ∧ ((env.targetEnc = none ∨ hasCol df "city_full" = false) → targetStage env df = df)
    ∧ (∀ fm, env.freqEnc = some fm → hasCol df "zipcode" = true →
        freqStage env df = applyFreq fm df)
    ∧ (∀ te, env.targetEnc = some te → hasCol df "city_full" = true →
        targetStage env df = applyTarget te df) := by
  refine ⟨?_, ?_, ?_, ?_⟩
  · intro h
    unfold freqStage
    rcases h with h | h
    · rw [h]
    · split
      · rw [h, if_neg Bool.false_ne_true]
      · rfl
  · intro h
    unfold targetStage
    rcases h with h | h
    · rw [h]
    · split
      · rw [h, if_neg Bool.false_ne_true]
      · rfl
  · intro fm hfm hz
    unfold freqStage
    rw [hfm, hz]
    simp
  · intro te hte hc
    unfold targetStage
    rw [hte, hc]
    simp

/-- Witness for claim C6: with both encoder artifacts absent, both
stages return the batch unchanged. -/
theorem encoders_silent_noop_witness :
    freqStage envNoModel dfOne = dfOne ∧ targetStage envNoModel dfOne = dfOne :=
  ⟨(encoders_silent_noop envNoModel dfOne).1 (Or.inl rfl),
   (encoders_silent_noop envNoModel dfOne).2.1 (Or.inl rfl)⟩

end HousingML

namespace HousingML

/-- Counterexample to claim C7: the output of a successful call can
contain an `actual_price` column even though no `price` column was
present — it suffices for the input batch itself to carry a column
named `actual_price` that survives to the model matrix (here schema
alignment is skipped because the training-features file is absent), so
"the output contains actuals exactly when price was present" fails as an
"exactly when". -/
theorem predict_actuals_without_price_cex :
    hasCol dfAct "price" = false
    ∧ predict envAct dfAct = Except.ok outAct
    ∧ hasCol outAct "actual_price" = true := by decide

/-- Claim C7 as amended: for every successful call — with `y` the
extracted price values, `m` the aligned matrix and `preds` the model's
prediction list of that call — the output carries the model's
predictions as the `predicted_price` column, one per surviving row of
the cleaned batch and in the model's order; when `price` was present
after pruning (`y = some ys`), the output carries `actual_price = ys`
aligned 1:1 with the predictions; and when it was not, the output has no
`actual_price` column unless the matrix `m` itself already carried one. -/
theorem predict_output_shape (env : Env) (df : DataFrame) (y : Option (List Value))
    (m : DataFrame) (preds : List ℚ) (out : DataFrame)
    (hp : pipelineCore env df = Except.ok (y, m))
    (hs : predictStep env m = Except.ok preds)
    (hok : predict env df = Except.ok out) :
    preds.length = (cleanerStage env df).nrows
    ∧ getCol out "predicted_price" = some (preds.map Value.num)
    ∧ (∀ ys, y = some ys →
        getCol out "actual_price" = some ys ∧ ys.length = preds.length)
    ∧ (y = none → hasCol m "actual_price" = false →
        hasCol out "actual_price" = false) := by
  unfold predict at hok
  rw [hp] at hok
  simp only at hok
  rw [hs] at hok
  simp only at hok
  unfold assembleOutput at hok
  by_cases hlen : preds.length = m.nrows
  · rw [if_pos hlen] at hok
    rcases y with _ | ys
    · simp only at hok
      cases hok
      refine ⟨?_, ?_, ?_, ?_⟩
      · rw [hlen, pipelineCore_ok_nrows env df none m hp]
      · exact getCol_setCol_self _ _ _
      · intro ys hys
        cases hys
      · intro _ hma
        rw [hasCol_setCol_ne _ _ _ _ (by decide)]
        exact hma
    · simp only at hok
      by_cases hys : ys.length = m.nrows
      · rw [if_pos hys] at hok
        cases hok
        refine ⟨?_, ?_, ?_, ?_⟩
        · rw [hlen, pipelineCore_ok_nrows env df (some ys) m hp]
        · rw [getCol_setCol_ne _ _ _ _ (by decide)]
          exact getCol_setCol_self _ _ _
        · intro ys' hys'
          cases hys'
          exact ⟨getCol_setCol_self _ _ _, by rw [hys, hlen]⟩
        · intro hn
          cases hn
      · rw [if_neg hys] at hok
        cases hok
  · rw [if_neg hlen] at hok
    cases hok

/-- Witness for claim C7: a successful concrete call whose output
carries the model's prediction as `predicted_price`. -/
theorem predict_output_shape_witness :
    getCol outAct "predicted_price" = some (([5] : List ℚ).map Value.num) :=
  (predict_output_shape envAct dfAct none dfAct [5] outAct (by decide) (by decide)
    (by decide)).2.1

/-- Claim C8: the spec's round-trip scenario — the input record
`{date: "2024-05-01", bedrooms: 3, bathrooms: 2, sqft_living: 2000,
zipcode: "98101"}`, a frequency encoder mapping `"98101"` to 0.07, and
training schema `[bedrooms, bathrooms, sqft_living, zipcode_freq, year,
month]` produce exactly the feature matrix `bedrooms = 3, bathrooms = 2,
sqft_living = 2000, zipcode_freq = 0.07, year = 2024, month = 5`, in
schema order — for every outlier policy that keeps the record and every
pruner drop-list that leaves the schema's feature columns alone (the
cleaner and pruner are modelled from the spec, which leaves both
policies abstract). -/
theorem roundtrip_feature_matrix (keep : List (String × Value) → Bool) (dropL : List String)
    (hkeep : keep row8 = true)
    (hdrop : ∀ c ∈ schema8, c ∉ dropL) :
    featureMatrix (env8 keep dropL) df8 = Except.ok expected8 := by
  have hclean : cleanerStage (env8 keep dropL) df8 = df8 := by
    unfold cleanerStage clean_and_merge
    have hd : drop_duplicates df8 = df8 := by decide
    rw [hd]
    unfold remove_outliers
    have h0 : List.range df8.nrows = [0] := by decide
    rw [h0]
    have hfil : List.filter (fun i => (env8 keep dropL).outlierKeep (rowAt df8 i)) [0]
        = [0] := by
      simp only [List.filter_cons, List.filter_nil]
      have hk0 : (env8 keep dropL).outlierKeep (rowAt df8 0) = true := hkeep
      rw [hk0]
      simp
    rw [hfil]
    decide
  have hcore : pipelineCore (env8 keep dropL) df8 =
      Except.ok ((extractPrice (dropCols df8F dropL)).1,
        alignStage (env8 keep dropL) (extractPrice (dropCols df8F dropL)).2) := by
    unfold pipelineCore
    rw [hclean]
    rfl
  have hprice : hasCol (dropCols df8F dropL) "price" = false :=
    hasCol_dropCols_of_not _ _ _ (by decide)
  have hextract : extractPrice (dropCols df8F dropL) = (none, dropCols df8F dropL) := by
    unfold extractPrice
    rw [hprice, if_neg Bool.false_ne_true]
  have halign : alignStage (env8 keep dropL) (dropCols df8F dropL) = expected8 := by
    show reindex (dropCols df8F dropL) schema8 (Value.num 0) = expected8
    have g1 : getCol (dropCols df8F dropL) "bedrooms" = some [Value.num 3] := by
      rw [getCol_dropCols_notmem _ _ _ (hdrop "bedrooms" (by decide))]
      decide
    have g2 : getCol (dropCols df8F dropL) "bathrooms" = some [Value.num 2] := by
      rw [getCol_dropCols_notmem _ _ _ (hdrop "bathrooms" (by decide))]
      decide
    have g3 : getCol (dropCols df8F dropL) "sqft_living" = some [Value.num 2000] := by
      rw [getCol_dropCols_notmem _ _ _ (hdrop "sqft_living" (by decide))]
      decide
    have g4 : getCol (dropCols df8F dropL) "zipcode_freq"
        = some [Value.num (mkRat 7 100)] := by
      rw [getCol_dropCols_notmem _ _ _ (hdrop "zipcode_freq" (by decide))]
      decide
    have g5 : getCol (dropCols df8F dropL) "year" = some [Value.num 2024] := by
      rw [getCol_dropCols_notmem _ _ _ (hdrop "year" (by decide))]
      decide
    have g6 : getCol (dropCols df8F dropL) "month" = some [Value.num 5] := by
      rw [getCol_dropCols_notmem _ _ _ (hdrop "month" (by decide))]
      decide
    show DataFrame.mk (dropCols df8F dropL).nrows
        (schema8.map (fun c => (c, (getCol (dropCols df8F dropL) c).getD
          (List.replicate (dropCols df8F dropL).nrows (Value.num 0))))) = expected8
    simp only [schema8, List.map_cons, List.map_nil]
    rw [g1, g2, g3, g4, g5, g6]
    rfl
  unfold featureMatrix
  rw [hcore]
  show Except.ok (alignStage (env8 keep dropL) (extractPrice (dropCols df8F dropL)).2)
    = Except.ok expected8
  rw [hextract]
  show Except.ok (alignStage (env8 keep dropL) (dropCols df8F dropL)) = Except.ok expected8
  rw [halign]

/-- Witness for claim C8: the round-trip matrix at the trivial outlier
policy and the empty drop-list. -/
theorem roundtrip_feature_matrix_witness :
    featureMatrix (env8 (fun _ => true) []) df8 = Except.ok expected8 :=
  roundtrip_feature_matrix (fun _ => true) [] rfl (by decide)

/-- Claim C9: a batch without a `date` column passes the feature
enrichment stage completely unchanged. -/
theorem enricher_skips_without_date (df : DataFrame) (h : hasCol df "date" = false) :
    enrichStage df = Except.ok df := by
  unfold enrichStage
  rw [h, if_neg Bool.false_ne_true]

/-- Witness for claim C9: a concrete date-free batch is unchanged. -/
theorem enricher_skips_without_date_witness :
    enrichStage dfOne = Except.ok dfOne :=
  enricher_skips_without_date dfOne (by decide)

/-- Claim C10: when the training-features file does not exist,
`TRAIN_FEATURE_COLUMNS` is `None` and every call skips schema alignment
entirely — the feature matrix reaching the model is exactly the matrix
left after pruning and price removal, with no column filled, dropped or
reordered and no error raised. -/
theorem missing_schema_skips_alignment (env : Env) (df : DataFrame) (h : env.schema = none) :
    loadTrainFeatureColumns none = none
    ∧ featureMatrix env df
        = (enrichStage (cleanerStage env df)).map
            (fun d2 =>
              (extractPrice (prunerStage env (targetStage env (freqStage env d2)))).2) := by
  have ha : ∀ d, alignStage env d = d := by
    intro d
    unfold alignStage
    rw [h]
  refine ⟨rfl, ?_⟩
  unfold featureMatrix pipelineCore
  rcases he : enrichStage (cleanerStage env df) with e | d2
  · rfl
  · simp only [Except.map, ha]

/-- Witness for claim C10: with the schema file absent, a concrete batch
reaches the model exactly as pruning left it. -/
theorem missing_schema_skips_alignment_witness :
    featureMatrix envNoModel dfOne = Except.ok dfOne :=
  ((missing_schema_skips_alignment envNoModel dfOne rfl).2).trans (by decide)

end HousingML
